import Mathlib

/-!
Shallow embedding of `src/Visualization/report_generator.py` from the
repository `kat-80818/MISIS-recomendation-systems-`.

Numbers are modelled as rationals (`ℚ`).  Python's global `random` module is
modelled as explicit state passing: a `RandomState` carries an infinite stream
of unit-interval draws together with a position, `random.seed(k)` replaces the
state by `seedState k`, and `random.uniform(a, b)` consumes one draw `u` and
returns `a + (b - a) * u` (CPython's definition of `uniform`).

The module `report_constants` (imported by the source as `c`) is part of the
repository but is not present under `src/`; its constants are therefore kept
abstract in a `Config` structure that every embedded function takes as a
parameter, and a concrete `specConfig` is modelled from the spec where a claim
needs concrete constant values.

Functions that can fail (Python `assert`, `TypeError`, `KeyError`) return
`Except PyError α`; the error is produced before any of the function's output
is constructed, mirroring the position of the assertions at the top of each
Python function body.
-/

/-- Errors a Python function of the source can raise: assertion failures
(from `assert` statements), type errors, key errors and value errors. -/
inductive PyError where
  | assertError (msg : String)
  | typeError (msg : String)
  | keyError (msg : String)
  | valueError (msg : String)
deriving DecidableEq, Repr

/-- State of Python's global `random` generator: an infinite stream of draws
in the unit interval `[0, 1)` together with the current position. -/
structure RandomState where
  stream : Nat → ℚ
  pos : Nat

/-- A random state is valid when every draw of its stream lies in `[0, 1)`,
which is what CPython's `random.random()` guarantees. -/
def ValidState (s : RandomState) : Prop :=
  ∀ i : Nat, 0 ≤ s.stream i ∧ s.stream i < 1

/-- Fixed stream of unit-interval draws determined by a seed: a concrete
stand-in for the Mersenne Twister sequence that `random.seed` selects.  Only
two facts about it are used: it is a function of the seed alone, and every
draw lies in `[0, 1)`. -/
def seedStream (seed : Nat) : Nat → ℚ :=
  fun i => ((seed + i) * 2654435761 % 1000003 : ℕ) / 1000003

/-- The generator state produced by `random.seed(seed)`. -/
def seedState (seed : Nat) : RandomState :=
  { stream := seedStream seed, pos := 0 }

/-- One call to `random.random()`: return the current draw, advance. -/
def randomUnit (s : RandomState) : ℚ × RandomState :=
  (s.stream s.pos, { s with pos := s.pos + 1 })

/-- CPython's `random.uniform(a, b)`: `a + (b - a) * random.random()`. -/
def pythonUniform (a b : ℚ) (s : RandomState) : ℚ × RandomState :=
  (a + (b - a) * (randomUnit s).1, (randomUnit s).2)

/-- Constants of the module `report_constants` used by the embedded
functions.  The module is part of the repository but absent from `src/`, so
its values are abstract here. -/
structure Config where
  IS_RANDOM_SEED_ACTIVE : Bool
  RANDOM_SEED : Nat
  THRESHOLD_MODIFYER : ℚ
  MAP_CENTER : List ℚ
  RANDOM_COORDS_THRESHOLD : ℚ
  WELL_ID_FIELD_NAME : String
  TARGET_COLOR : String
  OTHERS_COLOR : String
  MAP_TITLE : String

/-- Modelled from the spec: `report_constants.py` is imported by the source
but missing from `src/`, so concrete constant values cannot be read off the
code.  Values follow the spec's words: a fixed random seed is configured
(reproducibility), the map center is a positive (latitude, longitude) pair,
the longitude spread is scaled by a modifier, the well-identifier column is
`well_id` (spec §4.2), and the target marker color is distinct from the color
of every other marker (spec §8). -/
def specConfig : Config :=
  { IS_RANDOM_SEED_ACTIVE := true
    RANDOM_SEED := 42
    THRESHOLD_MODIFYER := 2
    MAP_CENTER := [55, 37]
    RANDOM_COORDS_THRESHOLD := 1/10
    WELL_ID_FIELD_NAME := "well_id"
    TARGET_COLOR := "red"
    OTHERS_COLOR := "blue"
    MAP_TITLE := "Drilling map" }

/-- The generation loop of `generate_random_coordinates` (lines 103-112):
for each of `n` iterations draw a latitude uniform in
`[c0 - t, c0 + t]` and then a longitude uniform in
`[c1 - t * m, c1 + t * m]`, appending the pair. -/
def genCoordsLoop (c0 c1 t m : ℚ) : Nat → RandomState → List (ℚ × ℚ) × RandomState
  | 0, s => ([], s)
  | Nat.succ n, s =>
    let lat := pythonUniform (c0 - t) (c0 + t) s
    let lon := pythonUniform (c1 - t * m) (c1 + t * m) lat.2
    let rest := genCoordsLoop c0 c1 t m n lon.2
    ((lat.1, lon.1) :: rest.1, rest.2)

/-- Embedding of `generate_random_coordinates(center, threshold, number)`
(report_generator.py lines 79-113).  Asserts, in source order: `number >= 1`,
`len(center) == 2`, and every coordinate of `center` strictly positive; then,
if the configured seed is active, re-seeds the global generator; then runs
the generation loop `number` times. -/
def generate_random_coordinates (cfg : Config) (center : List ℚ)
    (threshold : ℚ) (number : ℤ) (s : RandomState) :
    Except PyError (List (ℚ × ℚ) × RandomState) :=
  if number < 1 then
    .error (.assertError "Number must be more or equial 1")
  else if center.length ≠ 2 then
    .error (.assertError "Wrong center coordinates shape (must be 2 - lat and long)")
  else if center.any (fun x => decide (x ≤ 0)) then
    .error (.assertError "One of the coordinate is less than zero.")
  else
    let s1 := if cfg.IS_RANDOM_SEED_ACTIVE then seedState cfg.RANDOM_SEED else s
    .ok (genCoordsLoop (center.getD 0 0) (center.getD 1 0) threshold
          cfg.THRESHOLD_MODIFYER number.toNat s1)

/-- A scalar cell value of the data table: the source's well identifiers are
integers or strings (the docstring of `save_map` says `int/str`). -/
inductive WellVal where
  | intV (i : ℤ)
  | strV (s : String)
deriving DecidableEq, Repr

/-- Python's `str(...)` on a cell value. -/
def pyStr : WellVal → String
  | .intV i => toString i
  | .strV s => s

/-- A pandas `DataFrame` as used by the source: an index column plus named
data columns (name paired with the column's values). -/
structure DataFrame where
  indexVals : List WellVal
  cols : List (String × List WellVal)
deriving DecidableEq, Repr

/-- The `columns` attribute of a data frame: the list of column names. -/
def DataFrame.columns (d : DataFrame) : List String :=
  d.cols.map Prod.fst

/-- Column lookup `data[name]`: the values of the first column named `name`,
or `none` (Python `KeyError`) when no such column exists. -/
def DataFrame.getCol (d : DataFrame) (name : String) : Option (List WellVal) :=
  (d.cols.find? (fun p => decide (p.1 = name))).map Prod.snd

/-- An argument that is either a data frame or some other Python object, as
discriminated by the source's `isinstance(data, pd.DataFrame)` check. -/
inductive PyInput where
  | frame (d : DataFrame)
  | nonFrame
deriving DecidableEq, Repr

/-- One line subplot drawn by `generate_horizon_drill_image`: its title (the
column name), its x values (the index mapped through `str`) and its y values
(the column's values). -/
structure Subplot where
  title : String
  xs : List String
  ys : List WellVal
deriving DecidableEq, Repr

/-- The output of a successful `generate_horizon_drill_image` call: the drawn
subplots and the single file path passed to `fig.savefig`. -/
structure ImageReport where
  subplots : List Subplot
  path : String
deriving DecidableEq, Repr

/-- Models `os.path.join(a, b)` for a relative second component. -/
def joinPath (a b : String) : String := a ++ "/" ++ b

/-- Embedding of `generate_horizon_drill_image(data, export_path,
export_name, columns)` (report_generator.py lines 12-50).  In source order:
assert `isinstance(data, pd.DataFrame)`; assert `column in data.columns` for
each listed column; build the figure.  `plt.subplots(len(columns), 1)`
raises `ValueError` when `len(columns) == 0` (the positive-`nrows` check in
`GridSpecBase.__init__`, matplotlib >= 3.1); with the default `squeeze=True`
it returns a scalar `Axes` object (not an array) when exactly one subplot is
constructed, so the subscript `axes[num]` in the drawing loop raises
`TypeError` when `len(columns) == 1`; otherwise one subplot per column is
drawn and the figure is saved to
`os.path.join(export_path, export_name) + ".png"`. -/
def generate_horizon_drill_image (data : PyInput)
    (export_path export_name : String) (columns : List String) :
    Except PyError ImageReport :=
  match data with
  | .nonFrame => .error (.assertError "Data must be pd.DataFrame type!")
  | .frame d =>
    match columns.find? (fun col => !(decide (col ∈ d.columns))) with
    | some col => .error (.assertError ("No " ++ col ++ " in data"))
    | none =>
      if columns.length = 0 then
        .error (.valueError "Number of rows must be a positive integer")
      else if columns.length = 1 then
        .error (.typeError "'Axes' object is not subscriptable")
      else
        .ok { subplots := columns.map (fun col =>
                { title := col
                  xs := d.indexVals.map pyStr
                  ys := (d.getCol col).getD [] })
              path := joinPath export_path export_name ++ ".png" }

/-- A folium marker added to the map by `add_marker`: position, color, the
rendered HTML div, and the well identifier it labels. -/
structure Marker where
  lat : ℚ
  long : ℚ
  color : String
  html : String
  label : WellVal
deriving DecidableEq, Repr

/-- Embedding of `add_marker(well_map, lat, long, color, well_id)`
(report_generator.py lines 117-127): builds the styled HTML div and places
the marker at `[lat, long]`. -/
def add_marker (lat long : ℚ) (color : String) (well_id : WellVal) : Marker :=
  { lat := lat
    long := long
    color := color
    html := "<div style=\"font-size: 18pt; color : " ++ color ++ "\">"
              ++ pyStr well_id ++ "</div>"
    label := well_id }

/-- Order-preserving deduplication with an accumulator of already-seen
values: the behaviour of pandas `Series.unique` (first occurrence kept, input
order preserved). -/
def pyUniqueAux (seen : List WellVal) : List WellVal → List WellVal
  | [] => []
  | x :: rest =>
    if x ∈ seen then pyUniqueAux seen rest
    else x :: pyUniqueAux (x :: seen) rest

/-- `data[col].unique()`: the distinct values in order of first appearance. -/
def pyUnique (xs : List WellVal) : List WellVal := pyUniqueAux [] xs

/-- The output of a successful `save_map` call: the markers placed on the
map, the injected title HTML, and the single file path passed to
`well_map.save`. -/
structure MapReport where
  markers : List Marker
  title_html : String
  path : String
deriving DecidableEq, Repr

/-- Embedding of `save_map(data, target_well_label, export_path,
export_name)` (report_generator.py lines 131-174).  Looks up the
well-identifier column (`KeyError` if absent), generates one random
coordinate per unique well identifier, zips identifiers with coordinates and
adds one marker per pair — `TARGET_COLOR` when `str(well_id) ==
str(target_well_label)`, `OTHERS_COLOR` otherwise — then adds the title
element and saves to `os.path.join(export_path, export_name) + ".html"`. -/
def save_map (cfg : Config) (data : DataFrame) (target_well_label : WellVal)
    (export_path export_name : String) (s : RandomState) :
    Except PyError MapReport :=
  match data.getCol cfg.WELL_ID_FIELD_NAME with
  | none => .error (.keyError cfg.WELL_ID_FIELD_NAME)
  | some vals =>
    let uniq := pyUnique vals
    match generate_random_coordinates cfg cfg.MAP_CENTER
        cfg.RANDOM_COORDS_THRESHOLD (uniq.length : ℤ) s with
    | .error e => .error e
    | .ok r =>
      let markers := (uniq.zip r.1).map (fun p =>
        add_marker p.2.1 p.2.2
          (if pyStr p.1 = pyStr target_well_label
            then cfg.TARGET_COLOR else cfg.OTHERS_COLOR)
          p.1)
      .ok { markers := markers
            title_html := "<h3 style=\"font-size:20px\"><b>"
                            ++ cfg.MAP_TITLE ++ "</b></h3>"
            path := joinPath export_path export_name ++ ".html" }

/-- Every draw of a seeded stream lies in `[0, 1)`. -/
theorem seedState_valid (seed : Nat) : ValidState (seedState seed) := by
  intro i
  unfold seedState seedStream
  constructor
  · positivity
  · rw [div_lt_one (by norm_num)]
    exact_mod_cast Nat.mod_lt _ (by norm_num)

/-- `pythonUniform` does not change the underlying stream. -/
theorem pythonUniform_stream (a b : ℚ) (s : RandomState) :
    (pythonUniform a b s).2.stream = s.stream := rfl

/-- A uniform draw from a nonempty interval `[a, b]` stays in it. -/
theorem pythonUniform_bounds (a b : ℚ) (s : RandomState)
    (hs : ValidState s) (hab : a ≤ b) :
    a ≤ (pythonUniform a b s).1 ∧ (pythonUniform a b s).1 ≤ b := by
  obtain ⟨h0, h1⟩ := hs s.pos
  unfold pythonUniform randomUnit
  constructor
  · have : 0 ≤ (b - a) * s.stream s.pos :=
      mul_nonneg (sub_nonneg.mpr hab) h0
    simp only
    linarith
  · have : (b - a) * s.stream s.pos ≤ (b - a) * 1 :=
      mul_le_mul_of_nonneg_left h1.le (sub_nonneg.mpr hab)
    simp only
    linarith

/-- The generation loop emits exactly `n` pairs. -/
theorem genCoordsLoop_length (c0 c1 t m : ℚ) (n : Nat) (s : RandomState) :
    (genCoordsLoop c0 c1 t m n s).1.length = n := by
  induction n generalizing s with
  | zero => rfl
  | succ k ih => simp [genCoordsLoop, ih]

/-- Every pair emitted by the generation loop from a valid state lies in the
box `[c0 - t, c0 + t] × [c1 - t * m, c1 + t * m]` (for nonnegative spreads). -/
theorem genCoordsLoop_bounds (c0 c1 t m : ℚ) (n : Nat) (s : RandomState)
    (hs : ValidState s) (ht : 0 ≤ t) (htm : 0 ≤ t * m) :
    ∀ p ∈ (genCoordsLoop c0 c1 t m n s).1,
      c0 - t ≤ p.1 ∧ p.1 ≤ c0 + t ∧
      c1 - t * m ≤ p.2 ∧ p.2 ≤ c1 + t * m := by
  induction n generalizing s with
  | zero => intro p hp; simp [genCoordsLoop] at hp
  | succ k ih =>
    intro p hp
    simp only [genCoordsLoop, List.mem_cons] at hp
    have hs1 : ValidState (pythonUniform (c0 - t) (c0 + t) s).2 := by
      intro i; rw [pythonUniform_stream]; exact hs i
    have hs2 : ValidState
        (pythonUniform (c1 - t * m) (c1 + t * m)
          (pythonUniform (c0 - t) (c0 + t) s).2).2 := by
      intro i; rw [pythonUniform_stream, pythonUniform_stream]; exact hs i
    rcases hp with hp | hp
    · subst hp
      refine ⟨?_, ?_, ?_, ?_⟩
      · exact (pythonUniform_bounds _ _ _ hs (by linarith)).1
      · exact (pythonUniform_bounds _ _ _ hs (by linarith)).2
      · exact (pythonUniform_bounds _ _ _ hs1 (by linarith)).1
      · exact (pythonUniform_bounds _ _ _ hs1 (by linarith)).2
    · exact ih _ hs2 p hp

/-- When all three assertions pass, `generate_random_coordinates` returns
the result of the generation loop, started from the seeded state when the
configured seed is active and from the incoming state otherwise. -/
theorem generate_random_coordinates_ok (cfg : Config) (center : List ℚ)
    (t : ℚ) (n : ℤ) (s : RandomState) (h1 : 1 ≤ n)
    (h2 : center.length = 2) (h3 : ∀ x ∈ center, 0 < x) :
    generate_random_coordinates cfg center t n s =
      .ok (genCoordsLoop (center.getD 0 0) (center.getD 1 0) t
            cfg.THRESHOLD_MODIFYER n.toNat
            (if cfg.IS_RANDOM_SEED_ACTIVE then seedState cfg.RANDOM_SEED
             else s)) := by
  unfold generate_random_coordinates
  rw [if_neg (by omega), if_neg (by omega), if_neg]
  simp only [List.any_eq_true, decide_eq_true_eq, not_exists, not_and, not_le]
  exact h3

/-- When the configured seed is active the result of
`generate_random_coordinates` does not depend on the incoming generator
state: the state is overwritten by `random.seed(RANDOM_SEED)` first. -/
theorem generate_random_coordinates_seeded_const (cfg : Config)
    (center : List ℚ) (t : ℚ) (n : ℤ) (s1 s2 : RandomState)
    (h : cfg.IS_RANDOM_SEED_ACTIVE = true) :
    generate_random_coordinates cfg center t n s1 =
      generate_random_coordinates cfg center t n s2 := by
  unfold generate_random_coordinates
  rw [h]
  simp

/-- The first unique value of a nonempty column is its first value. -/
theorem pyUnique_cons (x : WellVal) (rest : List WellVal) :
    pyUnique (x :: rest) = x :: pyUniqueAux [x] rest := by
  simp [pyUnique, pyUniqueAux]

/-- C1: for every call to `generate_random_coordinates(center, threshold,
number)` whose preconditions hold (`number >= 1`, `center` a pair of positive
numbers), the returned list has exactly `number` elements, each of which is a
(latitude, longitude) pair (the element type `ℚ × ℚ`). -/
theorem generate_random_coordinates_returns_number_pairs (cfg : Config)
    (center : List ℚ) (t : ℚ) (n : ℤ) (s : RandomState) (h1 : 1 ≤ n)
    (h2 : center.length = 2) (h3 : ∀ x ∈ center, 0 < x) :
    ∃ (coords : List (ℚ × ℚ)) (s2 : RandomState),
      generate_random_coordinates cfg center t n s = .ok (coords, s2) ∧
      (coords.length : ℤ) = n := by
  rw [generate_random_coordinates_ok cfg center t n s h1 h2 h3]
  refine ⟨_, _, rfl, ?_⟩
  rw [genCoordsLoop_length]
  exact Int.toNat_of_nonneg (by omega)

/-- Witness for C1 at a concrete input. -/
theorem generate_random_coordinates_returns_number_pairs_witness :
    ∃ (coords : List (ℚ × ℚ)) (s2 : RandomState),
      generate_random_coordinates specConfig [55, 37] (1/10) 3 (seedState 0) =
        .ok (coords, s2) ∧ (coords.length : ℤ) = 3 :=
  generate_random_coordinates_returns_number_pairs specConfig [55, 37]
    (1/10) 3 (seedState 0) (by decide) rfl (by norm_num)

/-- C2: every pair returned by `generate_random_coordinates` has its latitude
within `center[0] ± threshold` and its longitude within
`center[1] ± threshold * THRESHOLD_MODIFYER`. -/
theorem generate_random_coordinates_within_bounds (cfg : Config)
    (center : List ℚ) (t : ℚ) (n : ℤ) (s : RandomState) (h1 : 1 ≤ n)
    (h2 : center.length = 2) (h3 : ∀ x ∈ center, 0 < x)
    (ht : 0 ≤ t) (hm : 0 ≤ cfg.THRESHOLD_MODIFYER) (hs : ValidState s) :
    ∃ (coords : List (ℚ × ℚ)) (s2 : RandomState),
      generate_random_coordinates cfg center t n s = .ok (coords, s2) ∧
      ∀ p ∈ coords,
        center.getD 0 0 - t ≤ p.1 ∧ p.1 ≤ center.getD 0 0 + t ∧
        center.getD 1 0 - t * cfg.THRESHOLD_MODIFYER ≤ p.2 ∧
        p.2 ≤ center.getD 1 0 + t * cfg.THRESHOLD_MODIFYER := by
  rw [generate_random_coordinates_ok cfg center t n s h1 h2 h3]
  refine ⟨_, _, rfl, ?_⟩
  apply genCoordsLoop_bounds
  · split_ifs with hseed
    · exact seedState_valid _
    · exact hs
  · exact ht
  · exact mul_nonneg ht hm

/-- Witness for C2 at a concrete input. -/
theorem generate_random_coordinates_within_bounds_witness :
    ∃ (coords : List (ℚ × ℚ)) (s2 : RandomState),
      generate_random_coordinates specConfig [55, 37] (1/10) 3 (seedState 0) =
        .ok (coords, s2) ∧
      ∀ p ∈ coords,
        ([55, 37] : List ℚ).getD 0 0 - 1/10 ≤ p.1 ∧
        p.1 ≤ ([55, 37] : List ℚ).getD 0 0 + 1/10 ∧
        ([55, 37] : List ℚ).getD 1 0 - 1/10 * specConfig.THRESHOLD_MODIFYER ≤ p.2 ∧
        p.2 ≤ ([55, 37] : List ℚ).getD 1 0 + 1/10 * specConfig.THRESHOLD_MODIFYER :=
  generate_random_coordinates_within_bounds specConfig [55, 37] (1/10) 3
    (seedState 0) (by decide) rfl (by norm_num) (by norm_num)
    (by norm_num [specConfig]) (seedState_valid 0)

/-- C3: `generate_random_coordinates` raises an assertion failure exactly
when `number < 1`, or `len(center) != 2`, or some coordinate of `center` is
`<= 0`; when all three conditions fail, no input-contract assertion fires. -/
theorem generate_random_coordinates_assert_iff (cfg : Config)
    (center : List ℚ) (t : ℚ) (n : ℤ) (s : RandomState) :
    (∃ msg, generate_random_coordinates cfg center t n s =
      .error (.assertError msg)) ↔
    (n < 1 ∨ center.length ≠ 2 ∨ ∃ x ∈ center, x ≤ 0) := by
  unfold generate_random_coordinates
  split_ifs with hA hB hC <;> simp_all

/-- C4: when the configured seed is active, `generate_random_coordinates` is
deterministic — any two runs with the same `center`, `threshold` and `number`
arguments (from arbitrary generator states) return identical results. -/
theorem generate_random_coordinates_deterministic_when_seeded (cfg : Config)
    (center : List ℚ) (t : ℚ) (n : ℤ) (s1 s2 : RandomState)
    (h : cfg.IS_RANDOM_SEED_ACTIVE = true) :
    generate_random_coordinates cfg center t n s1 =
      generate_random_coordinates cfg center t n s2 :=
  generate_random_coordinates_seeded_const cfg center t n s1 s2 h

/-- Witness for C4 at a concrete input. -/
theorem generate_random_coordinates_deterministic_when_seeded_witness :
    generate_random_coordinates specConfig [55, 37] (1/10) 3 (seedState 0) =
      generate_random_coordinates specConfig [55, 37] (1/10) 3 (seedState 7) :=
  generate_random_coordinates_deterministic_when_seeded specConfig [55, 37]
    (1/10) 3 (seedState 0) (seedState 7) rfl

/-- The generator state left behind by a `generate_random_coordinates` call,
or the incoming state when the call raised. -/
def stateAfter (r : Except PyError (List (ℚ × ℚ) × RandomState))
    (dflt : RandomState) : RandomState :=
  match r with
  | .ok p => p.2
  | .error _ => dflt

/-- C9: when the configured seed is active, `generate_random_coordinates`
re-seeds the global generator on every invocation, so an immediately
following call with equal arguments — run from the state the first call left
behind — returns the same result (in particular the same coordinate list). -/
theorem generate_random_coordinates_consecutive_calls_equal (cfg : Config)
    (center : List ℚ) (t : ℚ) (n : ℤ) (s : RandomState)
    (h : cfg.IS_RANDOM_SEED_ACTIVE = true) :
    generate_random_coordinates cfg center t n
        (stateAfter (generate_random_coordinates cfg center t n s) s) =
      generate_random_coordinates cfg center t n s :=
  generate_random_coordinates_seeded_const cfg center t n _ s h

/-- Witness for C9 at a concrete input. -/
theorem generate_random_coordinates_consecutive_calls_equal_witness :
    generate_random_coordinates specConfig [55, 37] (1/10) 3
        (stateAfter
          (generate_random_coordinates specConfig [55, 37] (1/10) 3
            (seedState 0)) (seedState 0)) =
      generate_random_coordinates specConfig [55, 37] (1/10) 3 (seedState 0) :=
  generate_random_coordinates_consecutive_calls_equal specConfig [55, 37]
    (1/10) 3 (seedState 0) rfl

/-- C5: `generate_horizon_drill_image` raises an assertion failure whenever
its `data` argument is not a data frame or some name in `columns` is absent
from the table's columns; the error is returned before any figure or file
output is constructed. -/
theorem generate_horizon_drill_image_asserts (data : PyInput)
    (export_path export_name : String) (columns : List String)
    (h : data = .nonFrame ∨
      ∃ d, data = .frame d ∧ ∃ col ∈ columns, col ∉ d.columns) :
    ∃ msg, generate_horizon_drill_image data export_path export_name columns =
      .error (.assertError msg) := by
  rcases h with h | ⟨d, rfl, col, hcol, hmem⟩
  · subst h; exact ⟨_, rfl⟩
  · cases hfind : columns.find? (fun c => !(decide (c ∈ d.columns))) with
    | some c =>
      exact ⟨"No " ++ c ++ " in data",
        by simp only [generate_horizon_drill_image, hfind]⟩
    | none =>
      rw [List.find?_eq_none] at hfind
      have hc := hfind col hcol
      simp [hmem] at hc

/-- Witness for C5 at a concrete input. -/
theorem generate_horizon_drill_image_asserts_witness :
    ∃ msg, generate_horizon_drill_image PyInput.nonFrame "exports" "report"
      ["speed"] = .error (.assertError msg) :=
  generate_horizon_drill_image_asserts PyInput.nonFrame "exports" "report"
    ["speed"] (Or.inl rfl)

/-- The two-well demonstration table used as a concrete input: a `speed`
column and a `well_id` column over a two-row index. -/
def demoDF : DataFrame :=
  { indexVals := [.intV 1, .intV 2]
    cols := [("speed", [.intV 10, .intV 20]),
             ("well_id", [.intV 1, .intV 1])] }

/-- Counterexample to C6 as stated: the column list `["speed"]` is fully
present in `demoDF`, yet `generate_horizon_drill_image` raises a `TypeError`
instead of completing — `plt.subplots(1, 1)` returns a scalar `Axes` object,
so the subscript `axes[0]` in the drawing loop fails. -/
theorem generate_horizon_drill_image_single_column_counterexample :
    ("speed" ∈ demoDF.columns) ∧
    generate_horizon_drill_image (.frame demoDF) "exports" "report" ["speed"]
      = .error (.typeError "'Axes' object is not subscriptable") := by
  constructor
  · decide
  · rfl

/-- C6 (amended): for every table and every column list whose columns are all
present in the table and that lists at least two columns,
`generate_horizon_drill_image` completes successfully, saves the figure to
exactly the one path `export_path/export_name.png`, and draws one line
subplot per listed column (titled by that column).  An empty list raises
`ValueError` in `plt.subplots(0, 1)` and a singleton list raises `TypeError`
at `axes[0]`, so neither writes a file. -/
theorem generate_horizon_drill_image_writes_one_file (d : DataFrame)
    (export_path export_name : String) (columns : List String)
    (hall : ∀ col ∈ columns, col ∈ d.columns) (hlen : 2 ≤ columns.length) :
    ∃ out : ImageReport,
      generate_horizon_drill_image (.frame d) export_path export_name columns
        = .ok out ∧
      out.path = joinPath export_path export_name ++ ".png" ∧
      out.subplots.length = columns.length ∧
      out.subplots.map Subplot.title = columns := by
  have hf : columns.find? (fun c => !(decide (c ∈ d.columns))) = none := by
    rw [List.find?_eq_none]
    intro x hx
    simp [hall x hx]
  simp only [generate_horizon_drill_image]
  rw [hf, if_neg (by omega), if_neg (by omega)]
  refine ⟨_, rfl, rfl, by simp, ?_⟩
  show List.map Subplot.title (columns.map _) = columns
  rw [List.map_map]
  exact List.map_id columns

/-- Witness for the amended C6 at a concrete input. -/
theorem generate_horizon_drill_image_writes_one_file_witness :
    ∃ out : ImageReport,
      generate_horizon_drill_image (.frame demoDF) "exports" "report"
        ["speed", "well_id"] = .ok out ∧
      out.path = joinPath "exports" "report" ++ ".png" ∧
      out.subplots.length = (["speed", "well_id"] : List String).length ∧
      out.subplots.map Subplot.title = ["speed", "well_id"] :=
  generate_horizon_drill_image_writes_one_file demoDF "exports" "report"
    ["speed", "well_id"] (by decide) (by decide)

/-- A nonempty well-identifier column has at least one unique value. -/
theorem pyUnique_length_pos (vals : List WellVal) (hne : vals ≠ []) :
    1 ≤ ((pyUnique vals).length : ℤ) := by
  cases vals with
  | nil => exact absurd rfl hne
  | cons x rest =>
    rw [pyUnique_cons]
    simp only [List.length_cons]
    omega

/-- C7: for every input table whose well-identifier column is present and
nonempty (so that the coordinate generator's `number >= 1` precondition
holds, see C10) and a valid configured map center, `save_map` places exactly
one marker per unique well identifier: the marker count equals the number of
unique well identifiers. -/
theorem save_map_one_marker_per_unique_well (cfg : Config) (data : DataFrame)
    (target : WellVal) (export_path export_name : String) (s : RandomState)
    (vals : List WellVal)
    (hcol : data.getCol cfg.WELL_ID_FIELD_NAME = some vals) (hne : vals ≠ [])
    (h2 : cfg.MAP_CENTER.length = 2) (h3 : ∀ x ∈ cfg.MAP_CENTER, 0 < x) :
    ∃ out : MapReport,
      save_map cfg data target export_path export_name s = .ok out ∧
      out.markers.length = (pyUnique vals).length := by
  simp only [save_map, hcol]
  rw [generate_random_coordinates_ok cfg cfg.MAP_CENTER
        cfg.RANDOM_COORDS_THRESHOLD ((pyUnique vals).length : ℤ) s
        (pyUnique_length_pos vals hne) h2 h3]
  refine ⟨_, rfl, ?_⟩
  simp [List.length_zip, genCoordsLoop_length]

/-- Witness for C7 at a concrete input. -/
theorem save_map_one_marker_per_unique_well_witness :
    ∃ out : MapReport,
      save_map specConfig demoDF (.intV 1) "exports" "wells_map" (seedState 0)
        = .ok out ∧
      out.markers.length =
        (pyUnique [WellVal.intV 1, WellVal.intV 1]).length :=
  save_map_one_marker_per_unique_well specConfig demoDF (.intV 1) "exports"
    "wells_map" (seedState 0) [WellVal.intV 1, WellVal.intV 1] rfl
    (by decide) rfl (by norm_num [specConfig])

/-- C8: in `save_map`, a marker whose well identifier has the same string
form as `target_well_label` is rendered with `TARGET_COLOR` and every other
marker with `OTHERS_COLOR`, and the two configured colors are distinct
(distinctness per the modelled `specConfig`, since `report_constants.py` is
absent from `src/`). -/
theorem save_map_target_marker_distinct_color (data : DataFrame)
    (target : WellVal) (export_path export_name : String) (s : RandomState)
    (vals : List WellVal)
    (hcol : data.getCol specConfig.WELL_ID_FIELD_NAME = some vals)
    (hne : vals ≠ []) :
    ∃ out : MapReport,
      save_map specConfig data target export_path export_name s = .ok out ∧
      (∀ m ∈ out.markers,
        (pyStr m.label = pyStr target → m.color = specConfig.TARGET_COLOR) ∧
        (pyStr m.label ≠ pyStr target → m.color = specConfig.OTHERS_COLOR)) ∧
      specConfig.TARGET_COLOR ≠ specConfig.OTHERS_COLOR := by
  simp only [save_map, hcol]
  rw [generate_random_coordinates_ok specConfig specConfig.MAP_CENTER
        specConfig.RANDOM_COORDS_THRESHOLD ((pyUnique vals).length : ℤ) s
        (pyUnique_length_pos vals hne) rfl (by norm_num [specConfig])]
  refine ⟨_, rfl, ?_, by decide⟩
  intro m hm
  simp only [List.mem_map] at hm
  obtain ⟨q, hq, rfl⟩ := hm
  constructor
  · intro h
    simp only [add_marker] at h ⊢
    rw [if_pos h]
  · intro h
    simp only [add_marker] at h ⊢
    rw [if_neg h]

/-- Witness for C8 at a concrete input. -/
theorem save_map_target_marker_distinct_color_witness :
    ∃ out : MapReport,
      save_map specConfig demoDF (.intV 2) "exports" "wells_map" (seedState 0)
        = .ok out ∧
      (∀ m ∈ out.markers,
        (pyStr m.label = pyStr (.intV 2) →
          m.color = specConfig.TARGET_COLOR) ∧
        (pyStr m.label ≠ pyStr (.intV 2) →
          m.color = specConfig.OTHERS_COLOR)) ∧
      specConfig.TARGET_COLOR ≠ specConfig.OTHERS_COLOR :=
  save_map_target_marker_distinct_color demoDF (.intV 2) "exports"
    "wells_map" (seedState 0) [WellVal.intV 1, WellVal.intV 1] rfl (by decide)

/-- C10: `save_map` raises the coordinate generator's `number >= 1`
assertion whenever the input table has zero unique well identifiers (an
empty well-identifier column), since it requests exactly one coordinate per
unique well identifier. -/
theorem save_map_empty_table_asserts (cfg : Config) (data : DataFrame)
    (target : WellVal) (export_path export_name : String) (s : RandomState)
    (hcol : data.getCol cfg.WELL_ID_FIELD_NAME = some []) :
    save_map cfg data target export_path export_name s =
      .error (.assertError "Number must be more or equial 1") := by
  unfold save_map
  rw [hcol]
  simp [pyUnique, pyUniqueAux, generate_random_coordinates]

/-- The empty demonstration table: a present but empty `well_id` column. -/
def emptyDF : DataFrame := { indexVals := [], cols := [("well_id", [])] }

/-- Witness for C10 at a concrete input. -/
theorem save_map_empty_table_asserts_witness :
    save_map specConfig emptyDF (.intV 1) "exports" "wells_map" (seedState 0)
      = .error (.assertError "Number must be more or equial 1") :=
  save_map_empty_table_asserts specConfig emptyDF (.intV 1) "exports"
    "wells_map" (seedState 0) rfl
